import Mathlib

/-!
Shallow embedding of the TapFinity backend ledger (src/app.py) and proofs
of the spec's claims about it.

The PostgreSQL tables `students` and `transactions` are modelled as lists
of records; each Flask handler becomes a pure function from the database
state (plus the request parameters it extracts) to the new database state
and the HTTP-level outcome.  The `uid`/`usn` request parameters are
upper-cased exactly as the handlers do (`d.get("uid","").upper()`).
Unhandled Python exceptions (subscripting a `None` row) are modelled as an
explicit `typeError` outcome; since the handler raises before reaching
`con.commit()`, the transaction is rolled back and the state is unchanged.
-/

namespace TapFinity

/-- Model of Python's `str.upper()` applied to request identifiers
(`d.get("uid","").upper()` and friends), mapped over the characters. -/
def pyUpper (s : String) : String :=
  ⟨s.data.map Char.toUpper⟩

/-- A row of the `students` table (src/setup_db.py / app.py `init_db`). -/
structure Student where
  uid : String
  usn : String
  name : String
  phone : String
  password_hash : String
  balance : Int
  blocked : Bool
  deriving DecidableEq, Repr

/-- A row of the `transactions` table: `INSERT INTO transactions(uid,amount,status)`.
The `timestamp` column defaults to the commit time, so list order (oldest
first) encodes the audit ordering. -/
structure Txn where
  uid : String
  amount : Int
  status : String
  deriving DecidableEq, Repr

/-- The database state: both tables. -/
structure DB where
  students : List Student
  transactions : List Txn
  deriving DecidableEq, Repr

/-- `SELECT * FROM students WHERE uid=%s` (uid is UNIQUE, `fetchone`). -/
def findStudentByUid (db : DB) (uid : String) : Option Student :=
  db.students.find? (fun s => s.uid == uid)

/-- `SELECT * FROM students WHERE usn=%s` (usn is UNIQUE, `fetchone`). -/
def findStudentByUsn (db : DB) (usn : String) : Option Student :=
  db.students.find? (fun s => s.usn == usn)

/-- `UPDATE students SET balance=%s WHERE uid=%s`. -/
def updateBalanceByUid (students : List Student) (uid : String) (b : Int) :
    List Student :=
  students.map (fun s => if s.uid == uid then { s with balance := b } else s)

/-- `UPDATE students SET balance=%s WHERE usn=%s`. -/
def updateBalanceByUsn (students : List Student) (usn : String) (b : Int) :
    List Student :=
  students.map (fun s => if s.usn == usn then { s with balance := b } else s)

/-- `UPDATE students SET blocked=... WHERE usn=%s`. -/
def setBlockedByUsn (students : List Student) (usn : String) (v : Bool) :
    List Student :=
  students.map (fun s => if s.usn == usn then { s with blocked := v } else s)

/-- Outcome of the `/deduct` handler: `{"ok":True,"balance":new_bal}` or the
single generic failure response `{"ok":False}, 400` (returned identically
for not-found, blocked and insufficient-balance requests). -/
inductive DeductResult
  | ok (balance : Int)
  | failed
  deriving DecidableEq, Repr

/-- Outcome of `/api/add_balance`: `{"status":"success"}` or the unhandled
`TypeError` raised by `s["balance"]` when `fetchone()` returned `None`. -/
inductive CreditResult
  | success (newBalance : Int)
  | typeError
  deriving DecidableEq, Repr

/-- Outcome of `/api/block_card` / `/api/unblock_card`: success, or the
unhandled `TypeError` raised by `cur.fetchone()["phone"]` when no row
matches (the preceding UPDATE matched no rows and is rolled back because
`con.commit()` is never reached). -/
inductive AckResult
  | success
  | typeError
  deriving DecidableEq, Repr

/-- Outcome of `/api/add_student`. -/
inductive EnrollResult
  | success
  | fieldsMissing
  | duplicateKey
  deriving DecidableEq, Repr

/-- Outcome of `/api/student/by_usn/<usn>`: the student row with the 20 most
recent transactions, or the unhandled `TypeError` raised by `s["uid"]` when
the USN lookup returned `None`. -/
inductive DashboardResult
  | success (student : Student) (transactions : List Txn)
  | typeError
  deriving DecidableEq, Repr

/-- Abstract model of `werkzeug.security.generate_password_hash` (an
external library call; its internals are irrelevant to every claim). -/
def generate_password_hash (password : String) : String :=
  "pbkdf2:" ++ password

/-- `/deduct` handler (app.py:278-317).  Loads the student by upper-cased
uid; if the row is missing, blocked, or `balance < amt`, a single guard
fires: a `"failed"` transaction row is inserted and committed whenever the
student exists, and the generic failure response is returned.  Otherwise
`new_bal = balance - amt` is persisted together with one `"success"`
transaction row in a single commit and returned. -/
def deduct (db : DB) (uidRaw : String) (amt : Int) : DB × DeductResult :=
  match findStudentByUid db (pyUpper uidRaw) with
  | none => (db, .failed)
  | some s =>
    if s.blocked ∨ s.balance < amt then
      ({ db with
          transactions := db.transactions ++ [⟨pyUpper uidRaw, amt, "failed"⟩] },
       .failed)
    else
      ({ students := updateBalanceByUid db.students (pyUpper uidRaw) (s.balance - amt),
         transactions := db.transactions ++ [⟨pyUpper uidRaw, amt, "success"⟩] },
       .ok (s.balance - amt))

/-- `/api/add_balance` handler (app.py:323-348).  Loads the student by
upper-cased usn; when the row is missing, `s["balance"]` raises an
unhandled `TypeError` (state unchanged).  Otherwise `new_bal = balance +
amt` (no sign check, no blocked check) is persisted together with one
`"topup"` transaction row in a single commit. -/
def add_balance (db : DB) (usnRaw : String) (amt : Int) : DB × CreditResult :=
  match findStudentByUsn db (pyUpper usnRaw) with
  | none => (db, .typeError)
  | some s =>
      ({ students := updateBalanceByUsn db.students (pyUpper usnRaw) (s.balance + amt),
         transactions := db.transactions ++ [⟨s.uid, amt, "topup"⟩] },
       .success (s.balance + amt))

/-- `/api/block_card` handler (app.py:354-367).  `UPDATE ... SET
blocked=TRUE WHERE usn=%s` then `SELECT phone ...`; when no row matches,
`fetchone()["phone"]` raises before `con.commit()`, so the (empty) update
is rolled back and the state is unchanged. -/
def block (db : DB) (usnRaw : String) : DB × AckResult :=
  match findStudentByUsn db (pyUpper usnRaw) with
  | none => (db, .typeError)
  | some _ =>
      ({ db with students := setBlockedByUsn db.students (pyUpper usnRaw) true },
       .success)

/-- `/api/unblock_card` handler (app.py:370-383), symmetric to `block`. -/
def unblock (db : DB) (usnRaw : String) : DB × AckResult :=
  match findStudentByUsn db (pyUpper usnRaw) with
  | none => (db, .typeError)
  | some _ =>
      ({ db with students := setBlockedByUsn db.students (pyUpper usnRaw) false },
       .success)

/-- `/api/add_student` handler (app.py:112-144).  Rejects when any of the
five text fields is empty (`all([usn, uid, name, phone, password])`, with
usn/uid already upper-cased); the INSERT raising `UniqueViolation` on a
duplicate usn or uid is modelled as an existence check against the UNIQUE
columns; otherwise the row is inserted with the requested balance and the
table's `blocked BOOLEAN DEFAULT FALSE`. -/
def add_student (db : DB) (usnRaw uidRaw name phone password : String)
    (balance : Int) : DB × EnrollResult :=
  if pyUpper usnRaw = "" ∨ pyUpper uidRaw = "" ∨ name = "" ∨
      phone = "" ∨ password = "" then
    (db, .fieldsMissing)
  else if (findStudentByUsn db (pyUpper usnRaw)).isSome ∨
      (findStudentByUid db (pyUpper uidRaw)).isSome then
    (db, .duplicateKey)
  else
    ({ db with
        students := db.students ++
          [{ uid := pyUpper uidRaw, usn := pyUpper usnRaw, name := name,
             phone := phone, password_hash := generate_password_hash password,
             balance := balance, blocked := false }] },
     .success)

/-- `/api/student/by_usn/<usn>` handler (app.py:234-251).  When the USN
lookup returns `None`, the handler dereferences `s["uid"]` and raises an
unhandled `TypeError`; otherwise it returns the row and the student's
transactions `ORDER BY timestamp DESC LIMIT 20` (newest first). -/
def student_by_usn (db : DB) (usnRaw : String) : DashboardResult :=
  match findStudentByUsn db (pyUpper usnRaw) with
  | none => .typeError
  | some s =>
      .success s (((db.transactions.filter (fun t => t.uid == s.uid)).reverse).take 20)

/-- A debit or credit request, for reasoning about sequences of calls. -/
inductive Op
  | debitOp (uid : String) (amt : Int)
  | creditOp (usn : String) (amt : Int)
  deriving DecidableEq, Repr

/-- The amount carried by a request. -/
def Op.amount : Op → Int
  | .debitOp _ a => a
  | .creditOp _ a => a

/-- Apply one request to the database (the state part of the handler). -/
def applyOp (db : DB) : Op → DB
  | .debitOp u a => (deduct db u a).1
  | .creditOp u a => (add_balance db u a).1

/-- Run a sequence of debit/credit requests in order. -/
def runOps (db : DB) (ops : List Op) : DB :=
  ops.foldl applyOp db

/-- Invariant I1: every account balance is non-negative. -/
def nonnegDB (db : DB) : Prop :=
  ∀ s ∈ db.students, 0 ≤ s.balance

instance (db : DB) : Decidable (nonnegDB db) := by
  unfold nonnegDB; infer_instance

/-- Concrete state for witnesses: one enrolled, unblocked student with
balance 500 (the spec's §8 scenario account). -/
def demoDB : DB :=
  { students := [{ uid := "AB12", usn := "1AB20CS001", name := "Asha",
                   phone := "9", password_hash := "h", balance := 500,
                   blocked := false }],
    transactions := [] }

/-- Concrete state for witnesses: the same account after `SetBlocked(true)`,
balance 350. -/
def blockedDB : DB :=
  { students := [{ uid := "AB12", usn := "1AB20CS001", name := "Asha",
                   phone := "9", password_hash := "h", balance := 350,
                   blocked := true }],
    transactions := [] }
/-! ### Helper lemmas -/

theorem mem_of_findStudentByUid {db : DB} {u : String} {s : Student}
    (h : findStudentByUid db u = some s) : s ∈ db.students :=
  List.mem_of_find?_eq_some h

theorem mem_of_findStudentByUsn {db : DB} {u : String} {s : Student}
    (h : findStudentByUsn db u = some s) : s ∈ db.students :=
  List.mem_of_find?_eq_some h

theorem find?_map_guard {α : Type} (p : α → Bool) (g : α → α)
    (hg : ∀ a, p (g a) = p a) (l : List α) :
    (l.map (fun a => if p a then g a else a)).find? p = (l.find? p).map g := by
  induction l with
  | nil => rfl
  | cons x xs ih =>
      cases hp : p x
      · rw [List.map_cons, if_neg (by simp [hp]),
          List.find?_cons_of_neg _ (by simp [hp]),
          List.find?_cons_of_neg _ (by simp [hp]), ih]
      · rw [List.map_cons, if_pos hp,
          List.find?_cons_of_pos _ (by rw [hg]; exact hp),
          List.find?_cons_of_pos _ hp]
        rfl


theorem findStudentByUid_update (db : DB) (u : String) (b : Int) (tx : List Txn) :
    findStudentByUid { students := updateBalanceByUid db.students u b,
                       transactions := tx } u =
      (findStudentByUid db u).map (fun s => { s with balance := b }) := by
  unfold findStudentByUid updateBalanceByUid
  exact find?_map_guard (fun s => s.uid == u) (fun s => { s with balance := b })
    (fun a => rfl) db.students

theorem findStudentByUsn_update (db : DB) (u : String) (b : Int) (tx : List Txn) :
    findStudentByUsn { students := updateBalanceByUsn db.students u b,
                       transactions := tx } u =
      (findStudentByUsn db u).map (fun s => { s with balance := b }) := by
  unfold findStudentByUsn updateBalanceByUsn
  exact find?_map_guard (fun s => s.usn == u) (fun s => { s with balance := b })
    (fun a => rfl) db.students

theorem deduct_success_eq (db : DB) (u : String) (amt : Int) (s : Student)
    (hs : findStudentByUid db (pyUpper u) = some s)
    (hb : s.blocked = false) (hf : amt ≤ s.balance) :
    deduct db u amt =
      ({ students := updateBalanceByUid db.students (pyUpper u) (s.balance - amt),
         transactions := db.transactions ++ [⟨pyUpper u, amt, "success"⟩] },
       .ok (s.balance - amt)) := by
  unfold deduct
  rw [hs]
  dsimp only
  rw [if_neg (by simp [hb]; omega)]

theorem deduct_guard_eq (db : DB) (u : String) (amt : Int) (s : Student)
    (hs : findStudentByUid db (pyUpper u) = some s)
    (hg : s.blocked = true ∨ s.balance < amt) :
    deduct db u amt =
      ({ db with transactions := db.transactions ++ [⟨pyUpper u, amt, "failed"⟩] },
       .failed) := by
  unfold deduct
  rw [hs]
  dsimp only
  rw [if_pos hg]

theorem add_balance_found_eq (db : DB) (u : String) (amt : Int) (s : Student)
    (hs : findStudentByUsn db (pyUpper u) = some s) :
    add_balance db u amt =
      ({ students := updateBalanceByUsn db.students (pyUpper u) (s.balance + amt),
         transactions := db.transactions ++ [⟨s.uid, amt, "topup"⟩] },
       .success (s.balance + amt)) := by
  unfold add_balance
  rw [hs]

theorem nonnegDB_deduct (db : DB) (u : String) (amt : Int)
    (h : nonnegDB db) : nonnegDB (deduct db u amt).1 := by
  unfold deduct
  cases hf : findStudentByUid db (pyUpper u) with
  | none => exact h
  | some s =>
      dsimp only
      by_cases hg : s.blocked = true ∨ s.balance < amt
      · rw [if_pos hg]
        exact h
      · rw [if_neg hg]
        have hlt : amt ≤ s.balance := by
          rcases not_or.1 hg with ⟨_, h2⟩
          omega
        unfold nonnegDB updateBalanceByUid
        intro t ht
        rcases List.mem_map.1 ht with ⟨x, hx, rfl⟩
        by_cases hxu : (x.uid == pyUpper u) = true
        · rw [if_pos hxu]
          show 0 ≤ s.balance - amt
          omega
        · rw [if_neg hxu]
          exact h x hx

theorem nonnegDB_add_balance (db : DB) (u : String) (amt : Int)
    (ha : 0 ≤ amt) (h : nonnegDB db) : nonnegDB (add_balance db u amt).1 := by
  unfold add_balance
  cases hf : findStudentByUsn db (pyUpper u) with
  | none => exact h
  | some s =>
      dsimp only
      have hsb : 0 ≤ s.balance := h s (mem_of_findStudentByUsn hf)
      unfold nonnegDB updateBalanceByUsn
      intro t ht
      rcases List.mem_map.1 ht with ⟨x, hx, rfl⟩
      by_cases hxu : (x.usn == pyUpper u) = true
      · rw [if_pos hxu]
        show 0 ≤ s.balance + amt
        omega
      · rw [if_neg hxu]
        exact h x hx

theorem nonnegDB_runOps (ops : List Op) : ∀ db : DB, nonnegDB db →
    (∀ op ∈ ops, 0 < op.amount) → nonnegDB (runOps db ops) := by
  induction ops with
  | nil => exact fun db h _ => h
  | cons op rest ih =>
      intro db h hops
      have h1 : nonnegDB (applyOp db op) := by
        cases op with
        | debitOp u a => exact nonnegDB_deduct db u a h
        | creditOp u a =>
            exact nonnegDB_add_balance db u a
              (le_of_lt (hops _ (List.mem_cons_self _ _))) h
      exact ih (applyOp db op) h1 (fun o ho => hops o (List.mem_cons_of_mem _ ho))


/-! ### Claims -/

/-- C1: for every account and every sequence of Debit and Credit requests
whose amounts are positive, starting from a state where all balances are
non-negative, the balance of every account is non-negative at every
observable point (after any prefix of the sequence): `/deduct` only
updates the balance when `balance >= amount` and `/api/add_balance` only
adds a positive amount. -/
theorem balance_never_negative (db : DB) (ops p rest : List Op)
    (hsplit : ops = p ++ rest) (h0 : nonnegDB db)
    (hpos : ∀ op ∈ ops, 0 < Op.amount op) :
    nonnegDB (runOps db p) := by
  subst hsplit
  exact nonnegDB_runOps p db h0
    (fun op hop => hpos op (List.mem_append_left _ hop))

/-- Witness for C1 at a concrete state and request sequence. -/
theorem balance_never_negative_witness :
    nonnegDB (runOps demoDB [Op.debitOp "AB12" 150]) :=
  balance_never_negative demoDB
    [Op.debitOp "AB12" 150, Op.creditOp "1AB20CS001" 200]
    [Op.debitOp "AB12" 150] [Op.creditOp "1AB20CS001" 200] rfl
    (by decide) (by decide)

/-- Rewriting a uid-keyed balance update commutes with the uid lookup at
list level. -/
theorem find?_updateBalanceByUid (l : List Student) (u : String) (b : Int) :
    (updateBalanceByUid l u b).find? (fun s => s.uid == u) =
      (l.find? (fun s => s.uid == u)).map (fun s => { s with balance := b }) :=
  find?_map_guard (fun s => s.uid == u) (fun s => { s with balance := b })
    (fun _ => rfl) l

/-- Rewriting a usn-keyed balance update commutes with the usn lookup at
list level. -/
theorem find?_updateBalanceByUsn (l : List Student) (u : String) (b : Int) :
    (updateBalanceByUsn l u b).find? (fun s => s.usn == u) =
      (l.find? (fun s => s.usn == u)).map (fun s => { s with balance := b }) :=
  find?_map_guard (fun s => s.usn == u) (fun s => { s with balance := b })
    (fun _ => rfl) l

/-- Looking up the updated uid in a state whose students were rewritten by
`updateBalanceByUid` yields the old row with the new balance. -/
theorem findStudentByUid_mk_update (l : List Student) (tx : List Txn)
    (u : String) (b : Int) :
    findStudentByUid ⟨updateBalanceByUid l u b, tx⟩ u =
      (l.find? (fun s => s.uid == u)).map (fun s => { s with balance := b }) :=
  find?_updateBalanceByUid l u b

/-- Looking up the updated usn in a state whose students were rewritten by
`updateBalanceByUsn` yields the old row with the new balance. -/
theorem findStudentByUsn_mk_update (l : List Student) (tx : List Txn)
    (u : String) (b : Int) :
    findStudentByUsn ⟨updateBalanceByUsn l u b, tx⟩ u =
      (l.find? (fun s => s.usn == u)).map (fun s => { s with balance := b }) :=
  find?_updateBalanceByUsn l u b

/-- C2: every successful Debit and every successful Credit changes the
balance and appends exactly one matching Transaction Record in the same
atomic state transition: the returned state's transaction table is the old
one extended by exactly one record whose amount equals the magnitude of
the balance delta (`amtD` for a debit of `amtD`, `amtC` for a credit of
`amtC`), and that same state already carries the updated balance — no
state with one change but not the other is ever produced. -/
theorem atomic_log_balance_pairing (db : DB) (u usn : String)
    (amtD amtC : Int) (s t : Student)
    (hs : findStudentByUid db (pyUpper u) = some s)
    (hb : s.blocked = false) (hf : amtD ≤ s.balance)
    (ht : findStudentByUsn db (pyUpper usn) = some t) :
    ((deduct db u amtD).2 = .ok (s.balance - amtD) ∧
     (deduct db u amtD).1.transactions =
       db.transactions ++ [⟨pyUpper u, amtD, "success"⟩] ∧
     findStudentByUid (deduct db u amtD).1 (pyUpper u) =
       some { s with balance := s.balance - amtD }) ∧
    ((add_balance db usn amtC).2 = .success (t.balance + amtC) ∧
     (add_balance db usn amtC).1.transactions =
       db.transactions ++ [⟨t.uid, amtC, "topup"⟩] ∧
     findStudentByUsn (add_balance db usn amtC).1 (pyUpper usn) =
       some { t with balance := t.balance + amtC }) := by
  rw [deduct_success_eq db u amtD s hs hb hf,
      add_balance_found_eq db usn amtC t ht]
  have hs' : db.students.find? (fun x => x.uid == pyUpper u) = some s := hs
  have ht' : db.students.find? (fun x => x.usn == pyUpper usn) = some t := ht
  refine ⟨⟨rfl, rfl, ?_⟩, rfl, rfl, ?_⟩
  · rw [findStudentByUid_mk_update, hs']
    rfl
  · rw [findStudentByUsn_mk_update, ht']
    rfl

/-- Witness for C2 at the spec's scenario state (balance 500, debit 150,
credit 200). -/
theorem atomic_log_balance_pairing_witness :
    (deduct demoDB "AB12" 150).2 = .ok 350 ∧
    (deduct demoDB "AB12" 150).1.transactions =
      demoDB.transactions ++ [⟨"AB12", 150, "success"⟩] := by
  have h := atomic_log_balance_pairing demoDB "AB12" "1AB20CS001" 150 200
    ⟨"AB12", "1AB20CS001", "Asha", "9", "h", 500, false⟩
    ⟨"AB12", "1AB20CS001", "Asha", "9", "h", 500, false⟩
    (by decide) rfl (by decide) (by decide)
  exact ⟨h.1.1, h.1.2.1⟩

/-- C3 counterexample: on a blocked account with balance 350 and an empty
transaction table, `Debit(AB12, 1)` does write a Transaction Record — a
`"failed"` row — refuting the claim that no record is written for a
blocked-card attempt (and the response is the generic failure, not a
distinct CardBlocked code). -/
theorem blocked_debit_writes_record_counterexample :
    (deduct blockedDB "AB12" 1).2 = .failed ∧
    (deduct blockedDB "AB12" 1).1.transactions = [⟨"AB12", 1, "failed"⟩] := by
  decide

/-- C3 (amended): for every existing account with `blocked = true` and
every amount, `/deduct` returns the generic debit-failure response, leaves
every student row (hence the balance) unchanged, and writes exactly one
`"failed"` Transaction Record for the blocked-card attempt. -/
theorem blocked_debit_behavior (db : DB) (u : String) (amt : Int) (s : Student)
    (hs : findStudentByUid db (pyUpper u) = some s)
    (hb : s.blocked = true) :
    (deduct db u amt).2 = .failed ∧
    (deduct db u amt).1.students = db.students ∧
    (deduct db u amt).1.transactions =
      db.transactions ++ [⟨pyUpper u, amt, "failed"⟩] := by
  rw [deduct_guard_eq db u amt s hs (Or.inl hb)]
  exact ⟨rfl, rfl, rfl⟩

/-- Witness for the amended C3 on the concrete blocked account. -/
theorem blocked_debit_behavior_witness :
    (deduct blockedDB "AB12" 5).2 = .failed ∧
    (deduct blockedDB "AB12" 5).1.students = blockedDB.students ∧
    (deduct blockedDB "AB12" 5).1.transactions =
      blockedDB.transactions ++ [⟨"AB12", 5, "failed"⟩] :=
  blocked_debit_behavior blockedDB "AB12" 5
    ⟨"AB12", "1AB20CS001", "Asha", "9", "h", 350, true⟩ (by decide) rfl

/-- C4 counterexample: two back-to-back `Debit(AB12, 10)` tap-path calls —
necessarily within any replay-suppression window, since nothing separates
them — are both accepted: the handler keeps no replay state and never
rejects with TooSoon, the final balance reflects two deductions (480, not
490), and two `"success"` records are written. -/
theorem replay_suppression_counterexample :
    (deduct demoDB "AB12" 10).2 = .ok 490 ∧
    (deduct (deduct demoDB "AB12" 10).1 "AB12" 10).2 = .ok 480 ∧
    (findStudentByUid (deduct (deduct demoDB "AB12" 10).1 "AB12" 10).1
        "AB12").map Student.balance = some 480 ∧
    (deduct (deduct demoDB "AB12" 10).1 "AB12" 10).1.transactions =
      [⟨"AB12", 10, "success"⟩, ⟨"AB12", 10, "success"⟩] := by
  decide

/-- C4 (amended): the tap-path debit handler performs no replay
suppression: for every existing, unblocked account with funds for two
debits, two consecutive `Debit` requests for the same card are both
accepted and the final balance reflects two deductions. -/
theorem consecutive_debits_both_accepted (db : DB) (u : String) (amt : Int)
    (s : Student)
    (hs : findStudentByUid db (pyUpper u) = some s)
    (hb : s.blocked = false) (ha : 0 ≤ amt) (hf : amt + amt ≤ s.balance) :
    (deduct db u amt).2 = .ok (s.balance - amt) ∧
    (deduct (deduct db u amt).1 u amt).2 = .ok (s.balance - amt - amt) ∧
    findStudentByUid (deduct (deduct db u amt).1 u amt).1 (pyUpper u) =
      some { s with balance := s.balance - amt - amt } := by
  have h1 := deduct_success_eq db u amt s hs hb (by omega)
  have hs' : db.students.find? (fun x => x.uid == pyUpper u) = some s := hs
  have hs2 : findStudentByUid
      ⟨updateBalanceByUid db.students (pyUpper u) (s.balance - amt),
       db.transactions ++ [⟨pyUpper u, amt, "success"⟩]⟩ (pyUpper u) =
      some { s with balance := s.balance - amt } := by
    rw [findStudentByUid_mk_update, hs']
    rfl
  rw [h1]
  have h2 := deduct_success_eq _ u amt _ hs2 hb
    (by show amt ≤ s.balance - amt; omega)
  rw [h2]
  refine ⟨rfl, rfl, ?_⟩
  have hs2' : (updateBalanceByUid db.students (pyUpper u)
      (s.balance - amt)).find? (fun x => x.uid == pyUpper u) =
      some { s with balance := s.balance - amt } := hs2
  rw [findStudentByUid_mk_update, hs2']
  rfl

/-- Witness for the amended C4: two debits of 200 from balance 500 both
succeed. -/
theorem consecutive_debits_both_accepted_witness :
    (deduct demoDB "AB12" 200).2 = .ok 300 ∧
    (deduct (deduct demoDB "AB12" 200).1 "AB12" 200).2 = .ok 100 := by
  have h := consecutive_debits_both_accepted demoDB "AB12" 200
    ⟨"AB12", "1AB20CS001", "Asha", "9", "h", 500, false⟩
    (by decide) rfl (by decide) (by decide)
  exact ⟨h.1, h.2.1⟩

/-- C5 counterexample: `Debit(AB12, 1000)` against the unblocked account
with balance 500 yields exactly the same response constructor and the same
record status (`"failed"`) as a debit attempt against the blocked account —
so no distinct InsufficientFunds error is returned and no distinct
`debit_failed_insufficient` record kind is written; the insufficient-funds
outcome is indistinguishable in form from the blocked-card outcome. -/
theorem insufficient_funds_generic_counterexample :
    (deduct demoDB "AB12" 1000).2 = .failed ∧
    (deduct demoDB "AB12" 1000).2 = (deduct blockedDB "AB12" 7).2 ∧
    (deduct demoDB "AB12" 1000).1.transactions = [⟨"AB12", 1000, "failed"⟩] ∧
    (deduct blockedDB "AB12" 7).1.transactions = [⟨"AB12", 7, "failed"⟩] := by
  decide

/-- C5 (amended): for every existing, unblocked account with `balance <
amount`, `/deduct` fails with the generic debit-failure response (the same
`{"ok":False}, 400` used for blocked-card attempts, with no distinct
InsufficientFunds code), leaves every student row unchanged, and writes
exactly one Transaction Record recording the attempted amount, with the
generic status `"failed"` that is also used for blocked attempts rather
than a distinct `debit_failed_insufficient` kind. -/
theorem insufficient_funds_debit (db : DB) (u : String) (amt : Int)
    (s : Student)
    (hs : findStudentByUid db (pyUpper u) = some s)
    (_hb : s.blocked = false) (hlt : s.balance < amt) :
    (deduct db u amt).2 = .failed ∧
    (deduct db u amt).1.students = db.students ∧
    (deduct db u amt).1.transactions =
      db.transactions ++ [⟨pyUpper u, amt, "failed"⟩] := by
  rw [deduct_guard_eq db u amt s hs (Or.inr hlt)]
  exact ⟨rfl, rfl, rfl⟩

/-- Witness for the amended C5: the spec's scenario `Debit(AB12, 1000)`
against balance 500. -/
theorem insufficient_funds_debit_witness :
    (deduct demoDB "AB12" 1000).2 = .failed ∧
    (deduct demoDB "AB12" 1000).1.students = demoDB.students ∧
    (deduct demoDB "AB12" 1000).1.transactions =
      demoDB.transactions ++ [⟨"AB12", 1000, "failed"⟩] :=
  insufficient_funds_debit demoDB "AB12" 1000
    ⟨"AB12", "1AB20CS001", "Asha", "9", "h", 500, false⟩
    (by decide) rfl (by decide)

/-- C6: for every existing, unblocked account with `balance >= amount`,
`/deduct` persists and returns `new_balance = balance - amount` with one
`"success"` (debit_success) record; for every existing account —
regardless of the `blocked` flag, on which `/api/add_balance` places no
hypothesis — Credit persists and returns `new_balance = balance + amount`
with one `"topup"` (credit) record. -/
theorem debit_credit_success_values (db : DB) (u usn : String)
    (amtD amtC : Int) (s t : Student)
    (hs : findStudentByUid db (pyUpper u) = some s)
    (hb : s.blocked = false) (hf : amtD ≤ s.balance)
    (ht : findStudentByUsn db (pyUpper usn) = some t) :
    deduct db u amtD =
      ({ students := updateBalanceByUid db.students (pyUpper u)
           (s.balance - amtD),
         transactions := db.transactions ++ [⟨pyUpper u, amtD, "success"⟩] },
       .ok (s.balance - amtD)) ∧
    add_balance db usn amtC =
      ({ students := updateBalanceByUsn db.students (pyUpper usn)
           (t.balance + amtC),
         transactions := db.transactions ++ [⟨t.uid, amtC, "topup"⟩] },
       .success (t.balance + amtC)) :=
  ⟨deduct_success_eq db u amtD s hs hb hf,
   add_balance_found_eq db usn amtC t ht⟩

/-- Witness for C6: debit 150 then credit 200 on the scenario account. -/
theorem debit_credit_success_values_witness :
    (deduct demoDB "AB12" 150).2 = .ok 350 ∧
    (add_balance demoDB "1AB20CS001" 200).2 = .success 700 := by
  have h := debit_credit_success_values demoDB "AB12" "1AB20CS001" 150 200
    ⟨"AB12", "1AB20CS001", "Asha", "9", "h", 500, false⟩
    ⟨"AB12", "1AB20CS001", "Asha", "9", "h", 500, false⟩
    (by decide) rfl (by decide) (by decide)
  exact ⟨congrArg Prod.snd h.1, congrArg Prod.snd h.2⟩

/-- C7: for every well-formed Enroll request (all five fields non-empty)
whose usn (login_id) or uid (card_id) already exists,
`/api/add_student` returns the duplicate-key error and alters nothing;
otherwise it creates exactly the new account with `balance =
initial_balance` and `blocked = false`, leaving existing rows intact. -/
theorem enroll_uniqueness (db : DB) (usn uid name phone password : String)
    (bal : Int)
    (hu : pyUpper usn ≠ "") (hi : pyUpper uid ≠ "") (hn : name ≠ "")
    (hp : phone ≠ "") (hw : password ≠ "") :
    (((findStudentByUsn db (pyUpper usn)).isSome ∨
        (findStudentByUid db (pyUpper uid)).isSome) →
      add_student db usn uid name phone password bal = (db, .duplicateKey)) ∧
    ((findStudentByUsn db (pyUpper usn) = none ∧
        findStudentByUid db (pyUpper uid) = none) →
      add_student db usn uid name phone password bal =
        ({ db with students := db.students ++
            [{ uid := pyUpper uid, usn := pyUpper usn, name := name,
               phone := phone,
               password_hash := generate_password_hash password,
               balance := bal, blocked := false }] }, .success)) := by
  constructor
  · intro hdup
    unfold add_student
    rw [if_neg (by push_neg; exact ⟨hu, hi, hn, hp, hw⟩), if_pos hdup]
  · intro hfresh
    obtain ⟨h1, h2⟩ := hfresh
    unfold add_student
    rw [if_neg (by push_neg; exact ⟨hu, hi, hn, hp, hw⟩),
        if_neg (by rw [h1, h2]; simp)]

/-- Witness for C7: enrolling a second account under the existing usn is
rejected and the state is unchanged. -/
theorem enroll_uniqueness_witness :
    add_student demoDB "1AB20CS001" "ZZ99" "Neel" "8" "pw" 100 =
      (demoDB, .duplicateKey) :=
  (enroll_uniqueness demoDB "1AB20CS001" "ZZ99" "Neel" "8" "pw" 100
    (by decide) (by decide) (by decide) (by decide) (by decide)).1
    (by decide)

/-- C8 counterexample: at a concrete state with no account `ZZZZ`, both
`/api/add_balance` and `/api/block_card` end in the unhandled-`TypeError`
outcome (`'NoneType' object is not subscriptable`, an HTTP 500), not a
typed AccountNotFound result, refuting the claim that a typed error is
returned; no state is changed. -/
theorem missing_account_crash_counterexample :
    add_balance demoDB "ZZZZ" 5 = (demoDB, .typeError) ∧
    block demoDB "ZZZZ" = (demoDB, .typeError) := by
  decide

/-- C8 (amended): for every Credit or SetBlocked request naming an absent
account identifier, the handler raises an unhandled `TypeError`
(subscripting the `None` row) — an unstructured internal failure rather
than a typed AccountNotFound result — and no state is changed. -/
theorem missing_account_unhandled_error (db : DB) (usn : String) (amt : Int)
    (h : findStudentByUsn db (pyUpper usn) = none) :
    add_balance db usn amt = (db, .typeError) ∧
    block db usn = (db, .typeError) := by
  unfold add_balance block
  rw [h]
  exact ⟨rfl, rfl⟩

/-- Witness for the amended C8 on a state whose only account is `AB12`. -/
theorem missing_account_unhandled_error_witness :
    add_balance blockedDB "9XX" 7 = (blockedDB, .typeError) ∧
    block blockedDB "9XX" = (blockedDB, .typeError) :=
  missing_account_unhandled_error blockedDB "9XX" 7 (by decide)

/-- C9: `/deduct` never checks `amount > 0`: for every existing, unblocked
account with non-negative balance and every negative amount, the guard
`balance < amount` is false, so the debit is accepted, the balance
increases by the magnitude of the amount (`balance - amt = balance +
(-amt) > balance`), and one `"success"` record with the negative amount is
written. -/
theorem negative_amount_debit_accepted (db : DB) (u : String) (amt : Int)
    (s : Student)
    (hs : findStudentByUid db (pyUpper u) = some s)
    (hb : s.blocked = false) (hnn : 0 ≤ s.balance) (hneg : amt < 0) :
    (deduct db u amt).2 = .ok (s.balance - amt) ∧
    s.balance < s.balance - amt ∧
    s.balance - amt = s.balance + (-amt) ∧
    (deduct db u amt).1.transactions =
      db.transactions ++ [⟨pyUpper u, amt, "success"⟩] := by
  rw [deduct_success_eq db u amt s hs hb (by omega)]
  exact ⟨rfl, by omega, by omega, rfl⟩

/-- Witness for C9: a debit of -50 from balance 500 is accepted and yields
balance 550. -/
theorem negative_amount_debit_accepted_witness :
    (deduct demoDB "AB12" (-50)).2 = .ok 550 ∧
    (deduct demoDB "AB12" (-50)).1.transactions =
      demoDB.transactions ++ [⟨"AB12", -50, "success"⟩] := by
  have h := negative_amount_debit_accepted demoDB "AB12" (-50)
    ⟨"AB12", "1AB20CS001", "Asha", "9", "h", 500, false⟩
    (by decide) rfl (by decide) (by decide)
  exact ⟨h.1, h.2.2.2⟩

/-- C10: the student-dashboard read is partial at its public interface:
for every usn with no matching account, the lookup is `None` and the
handler's subsequent `s["uid"]` raises an unhandled `TypeError` instead of
returning a typed not-found result. -/
theorem dashboard_crashes_on_missing_usn (db : DB) (usn : String)
    (h : findStudentByUsn db (pyUpper usn) = none) :
    student_by_usn db usn = .typeError := by
  unfold student_by_usn
  rw [h]

/-- Witness for C10 on a concrete absent usn. -/
theorem dashboard_crashes_on_missing_usn_witness :
    student_by_usn demoDB "9NOPE" = .typeError :=
  dashboard_crashes_on_missing_usn demoDB "9NOPE" (by decide)

end TapFinity
